import Mathlib

/-! Shallow embedding of the `card::card` Move module of the Sui-Cards
repository (a virtual prepaid-card ledger).  Addresses and `u64` values are
modelled as `Nat`; the `Balance<SUI>` stored in a card is represented by its
`u64` value, and a `Coin<SUI>` argument by its value.  A Move `assert!`
failure or VM arithmetic abort is an `OpResult.err` carrying the abort kind
and the card state at the abort point; Move `u64` addition aborts on
overflow, which the embedding renders as the `ArithmeticOverflow` kind. -/

namespace CardModule

/-- Largest value of a Move `u64`. -/
def u64Max : Nat := 2 ^ 64 - 1

/-- The `Card` object of the module: owner address, SUI balance (its `u64`
value), the spending limit, the cumulative amount spent through `spend`, and
the activity flag.  The `id : UID` of the Move struct is modelled as a
`Nat`. -/
structure Card where
  id : Nat
  owner : Nat
  balance : Nat
  spending_limit : Nat
  amount_spent : Nat
  is_active : Bool
  deriving DecidableEq

/-- All `u64`-typed fields of a card are in `u64` range (guaranteed by the
Move type system for any reachable card state). -/
def Card.wf (c : Card) : Prop :=
  c.balance ≤ u64Max ∧ c.spending_limit ≤ u64Max ∧ c.amount_spent ≤ u64Max

instance (c : Card) : Decidable c.wf :=
  inferInstanceAs
    (Decidable (c.balance ≤ u64Max ∧ c.spending_limit ≤ u64Max ∧ c.amount_spent ≤ u64Max))

/-- The events the module emits, with the payload fields of the Move structs
`CardCreated`, `Deposit`, `Spend` and `DirectTransfer`. -/
inductive Event where
  | CardCreated (card_id owner spending_limit : Nat)
  | Deposit (card_id amount new_balance : Nat)
  | Spend (card_id amount new_balance total_spent : Nat)
  | DirectTransfer (card_id recipient amount new_balance : Nat)
  deriving DecidableEq

/-- A coin moved out of the card by `transfer::public_transfer`. -/
structure CoinTransfer where
  recipient : Nat
  amount : Nat
  deriving DecidableEq

/-- Why an invocation aborts: the four assert codes of the module
(`ENotOwner`, `EInsufficientBalance`, `EExceedsSpendingLimit`,
`EInactiveCard`) plus the Move VM's abort on `u64` overflow. -/
inductive AbortKind where
  | NotOwner
  | InsufficientBalance
  | ExceedsSpendingLimit
  | InactiveCard
  | ArithmeticOverflow
  deriving DecidableEq

/-- Outcome of one invocation: success with the new card state, the emitted
events and the coins transferred out of the card, or an abort carrying the
card state at the abort point (in this module every check precedes every
mutation, and a Move abort rolls the transaction back). -/
inductive OpResult where
  | ok (card : Card) (events : List Event) (transfers : List CoinTransfer)
  | err (kind : AbortKind) (card : Card)
  deriving DecidableEq

/-- `create_card`: a fresh card owned by the sender with zero balance, zero
spent, the supplied limit and `is_active = true`, together with the emitted
`CardCreated` event.  `freshId` stands for the fresh `UID` minted by
`object::new`. -/
def create_card (spending_limit freshId sender : Nat) : Card × Event :=
  let card : Card :=
    { id := freshId, owner := sender, balance := 0, spending_limit := spending_limit,
      amount_spent := 0, is_active := true }
  (card, Event.CardCreated freshId sender spending_limit)

/-- `deposit`: owner-gated and activity-gated; joins the payment coin's value
into the card balance (`balance::join` aborts on `u64` overflow) and emits a
`Deposit` event. -/
def deposit (card : Card) (payment sender : Nat) : OpResult :=
  if sender ≠ card.owner then .err .NotOwner card
  else if card.is_active = false then .err .InactiveCard card
  else if u64Max < card.balance + payment then .err .ArithmeticOverflow card
  else
    let card' := { card with balance := card.balance + payment }
    .ok card' [Event.Deposit card.id payment card'.balance] []

/-- `spend`: the limit-tracked path.  Checks, in source order: owner,
activity, balance, then computes `amount_spent + amount` (a `u64` addition
that aborts on overflow) and checks it against the limit; on success splits
`amount` off the balance, transfers it to `recipient`, updates
`amount_spent` and emits a `Spend` event. -/
def spend (card : Card) (amount recipient sender : Nat) : OpResult :=
  if sender ≠ card.owner then .err .NotOwner card
  else if card.is_active = false then .err .InactiveCard card
  else if card.balance < amount then .err .InsufficientBalance card
  else if u64Max < card.amount_spent + amount then .err .ArithmeticOverflow card
  else if card.spending_limit < card.amount_spent + amount then .err .ExceedsSpendingLimit card
  else
    let card' := { card with balance := card.balance - amount,
                             amount_spent := card.amount_spent + amount }
    .ok card' [Event.Spend card.id amount card'.balance card'.amount_spent]
      [⟨recipient, amount⟩]

/-- `spend_to_owner`: pure delegation to `spend` with the sender as
recipient. -/
def spend_to_owner (card : Card) (amount sender : Nat) : OpResult :=
  spend card amount sender sender

/-- `direct_transfer`: the limit-bypassing path.  Checks owner, activity and
balance; on success moves `amount` to `recipient` without touching
`amount_spent` and emits a `DirectTransfer` event. -/
def direct_transfer (card : Card) (amount recipient sender : Nat) : OpResult :=
  if sender ≠ card.owner then .err .NotOwner card
  else if card.is_active = false then .err .InactiveCard card
  else if card.balance < amount then .err .InsufficientBalance card
  else
    let card' := { card with balance := card.balance - amount }
    .ok card' [Event.DirectTransfer card.id recipient amount card'.balance]
      [⟨recipient, amount⟩]

/-- `get_card_info`: the unauthenticated read accessor. -/
def get_card_info (card : Card) : Nat × Nat × Nat × Nat × Bool :=
  (card.owner, card.balance, card.spending_limit, card.amount_spent, card.is_active)

/-- `deactivate_card`: owner-gated, sets `is_active := false`, no event. -/
def deactivate_card (card : Card) (sender : Nat) : OpResult :=
  if sender ≠ card.owner then .err .NotOwner card
  else .ok { card with is_active := false } [] []

/-- `reactivate_card`: owner-gated, sets `is_active := true`, no event. -/
def reactivate_card (card : Card) (sender : Nat) : OpResult :=
  if sender ≠ card.owner then .err .NotOwner card
  else .ok { card with is_active := true } [] []

/-- `update_spending_limit`: owner-gated, sets the limit unconditionally, no
event. -/
def update_spending_limit (card : Card) (new_limit sender : Nat) : OpResult :=
  if sender ≠ card.owner then .err .NotOwner card
  else .ok { card with spending_limit := new_limit } [] []

/-- `withdraw`: owner-gated and balance-gated, with no activity check; moves
`amount` back to the sender and emits no event. -/
def withdraw (card : Card) (amount sender : Nat) : OpResult :=
  if sender ≠ card.owner then .err .NotOwner card
  else if card.balance < amount then .err .InsufficientBalance card
  else .ok { card with balance := card.balance - amount } [] [⟨sender, amount⟩]

/-- The card state an invocation leaves behind: the new state on success, the
rolled-back (unmutated) state on abort. -/
def resultCard : OpResult → Card
  | .ok c _ _ => c
  | .err _ c => c

/-- The abort kind of an invocation (`none` on success). -/
def resultKind : OpResult → Option AbortKind
  | .ok _ _ _ => none
  | .err k _ => some k

/-- The events an invocation emitted (none on abort). -/
def resultEvents : OpResult → List Event
  | .ok _ evs _ => evs
  | .err _ _ => []

/-- The coins an invocation moved out of the card (none on abort). -/
def resultTransfers : OpResult → List CoinTransfer
  | .ok _ _ ts => ts
  | .err _ _ => []

/-- One invocation of a mutating entry point of the module, with its
arguments. -/
inductive Op where
  | depositOp (payment : Nat)
  | spendOp (amount recipient : Nat)
  | spendToOwnerOp (amount : Nat)
  | directTransferOp (amount recipient : Nat)
  | withdrawOp (amount : Nat)
  | deactivateOp
  | reactivateOp
  | updateLimitOp (new_limit : Nat)
  deriving DecidableEq

/-- Dispatch one invocation, with `sender` as the transaction sender. -/
def runOp (sender : Nat) (op : Op) (card : Card) : OpResult :=
  match op with
  | .depositOp payment => deposit card payment sender
  | .spendOp amount recipient => spend card amount recipient sender
  | .spendToOwnerOp amount => spend_to_owner card amount sender
  | .directTransferOp amount recipient => direct_transfer card amount recipient sender
  | .withdrawOp amount => withdraw card amount sender
  | .deactivateOp => deactivate_card card sender
  | .reactivateOp => reactivate_card card sender
  | .updateLimitOp new_limit => update_spending_limit card new_limit sender

/-- Run a sequence of invocations; `none` as soon as one aborts. -/
def runOps (sender : Nat) (card : Card) : List Op → Option Card
  | [] => some card
  | op :: rest =>
    match runOp sender op card with
    | .ok c _ _ => runOps sender c rest
    | .err _ _ => none

/-- The amount an invocation deposits into the card. -/
def inflow : Op → Nat
  | .depositOp payment => payment
  | _ => 0

/-- The amount an invocation moves out of the card. -/
def outflow : Op → Nat
  | .spendOp amount _ => amount
  | .spendToOwnerOp amount => amount
  | .directTransferOp amount _ => amount
  | .withdrawOp amount => amount
  | _ => 0

/-- Total deposited over a sequence. -/
def sumInflow (ops : List Op) : Nat := (ops.map inflow).sum

/-- Total moved out over a sequence. -/
def sumOutflow (ops : List Op) : Nat := (ops.map outflow).sum

/-- The four preconditions of `spend` as the spec states them, with the limit
comparison read over unbounded naturals. -/
def spendPreconds (card : Card) (amount sender : Nat) : Prop :=
  sender = card.owner ∧ card.is_active = true ∧ amount ≤ card.balance ∧
    card.amount_spent + amount ≤ card.spending_limit

instance (card : Card) (amount sender : Nat) : Decidable (spendPreconds card amount sender) :=
  inferInstanceAs
    (Decidable (sender = card.owner ∧ card.is_active = true ∧ amount ≤ card.balance ∧
      card.amount_spent + amount ≤ card.spending_limit))

/-- The failure kind the spec's claim assigns to `spend`: that of the first
violated precondition in the fixed order, with the limit sum read over
unbounded naturals. -/
def claimedSpendKind (card : Card) (amount sender : Nat) : Option AbortKind :=
  if sender ≠ card.owner then some .NotOwner
  else if card.is_active = false then some .InactiveCard
  else if card.balance < amount then some .InsufficientBalance
  else if card.spending_limit < card.amount_spent + amount then some .ExceedsSpendingLimit
  else none

/-- The failure kind of `spend` as amended: the first violated precondition
in the fixed order, except that when the first three checks pass and
`amount_spent + amount` overflows `u64` the VM's arithmetic abort is
reported instead of `ExceedsSpendingLimit`. -/
def amendedSpendKind (card : Card) (amount sender : Nat) : Option AbortKind :=
  if sender ≠ card.owner then some .NotOwner
  else if card.is_active = false then some .InactiveCard
  else if card.balance < amount then some .InsufficientBalance
  else if u64Max < card.amount_spent + amount then some .ArithmeticOverflow
  else if card.spending_limit < card.amount_spent + amount then some .ExceedsSpendingLimit
  else none

/-- A well-formed active card owned by address 0 (used at concrete inputs). -/
def baseCard : Card :=
  { id := 0, owner := 0, balance := 10, spending_limit := 10, amount_spent := 0,
    is_active := true }

/-- The state of `baseCard`, written out a second time (used to exhibit
atomicity at a concrete input). -/
def baseCardCopy : Card :=
  { id := 0, owner := 0, balance := 10, spending_limit := 10, amount_spent := 0,
    is_active := true }

/-- A deactivated card owned by address 0 with funds in it. -/
def inactiveCard : Card :=
  { id := 0, owner := 0, balance := 10, spending_limit := 5, amount_spent := 0,
    is_active := false }

/-- A well-formed card whose `amount_spent` already sits at the `u64`
maximum, so one more tracked spend overflows the `u64` sum. -/
def saturatedCard : Card :=
  { id := 0, owner := 0, balance := 1, spending_limit := u64Max,
    amount_spent := u64Max, is_active := true }

/-- A concrete operation sequence that succeeds from a fresh card with limit
1000: deposits 10, moves out 3 + 2 + 1 + 2 through all four outgoing paths,
with limit updates and an activity toggle interleaved. -/
def opsSample : List Op :=
  [.depositOp 10, .spendOp 3 7, .withdrawOp 2, .directTransferOp 1 4,
   .updateLimitOp 50, .deactivateOp, .reactivateOp, .spendToOwnerOp 2]

/-- The card `opsSample` ends at, written out. -/
def opsSampleFinal : Card :=
  { id := 0, owner := 0, balance := 2, spending_limit := 50, amount_spent := 5,
    is_active := true }

/-- The card `deposit baseCard 5 0` ends at, written out. -/
def depositFinal : Card :=
  { id := 0, owner := 0, balance := 15, spending_limit := 10, amount_spent := 0,
    is_active := true }

/-- The card `spend baseCard 3 7 0` ends at, written out. -/
def spendFinal : Card :=
  { id := 0, owner := 0, balance := 7, spending_limit := 10, amount_spent := 3,
    is_active := true }

/-- The card `direct_transfer baseCard 3 7 0` ends at, written out. -/
def directTransferFinal : Card :=
  { id := 0, owner := 0, balance := 7, spending_limit := 10, amount_spent := 0,
    is_active := true }


theorem spend_kind_eq (card : Card) (amount recipient sender : Nat) :
    resultKind (spend card amount recipient sender) = amendedSpendKind card amount sender := by
  unfold spend amendedSpendKind
  split_ifs <;> rfl

theorem spend_ok_iff (card : Card) (amount recipient sender : Nat)
    (hl : card.spending_limit ≤ u64Max) :
    resultKind (spend card amount recipient sender) = none ↔
      spendPreconds card amount sender := by
  unfold spend spendPreconds
  split_ifs with h1 h2 h3 h4 h5
  · exact iff_of_false (Option.some_ne_none _) (fun hp => h1 hp.1)
  · exact iff_of_false (Option.some_ne_none _)
      (fun hp => by rw [hp.2.1] at h2; exact Bool.noConfusion h2)
  · exact iff_of_false (Option.some_ne_none _)
      (fun hp => absurd hp.2.2.1 (Nat.not_le.mpr h3))
  · exact iff_of_false (Option.some_ne_none _)
      (fun hp => absurd (le_trans hp.2.2.2 hl) (Nat.not_le.mpr h4))
  · exact iff_of_false (Option.some_ne_none _)
      (fun hp => absurd hp.2.2.2 (Nat.not_le.mpr h5))
  · refine iff_of_true rfl ⟨not_not.mp h1, ?_, Nat.not_lt.mp h3, Nat.not_lt.mp h5⟩
    cases hb : card.is_active with
    | true => rfl
    | false => exact absurd hb h2

theorem spend_ok_card (card : Card) (amount recipient sender : Nat)
    (hl : card.spending_limit ≤ u64Max) (hp : spendPreconds card amount sender) :
    resultCard (spend card amount recipient sender) =
      { card with balance := card.balance - amount,
                  amount_spent := card.amount_spent + amount } := by
  obtain ⟨h1, h2, h3, h4⟩ := hp
  unfold spend
  rw [if_neg (not_not_intro h1), if_neg (by rw [h2]; exact fun h => Bool.noConfusion h),
    if_neg (Nat.not_lt.mpr h3), if_neg (Nat.not_lt.mpr (le_trans h4 hl)),
    if_neg (Nat.not_lt.mpr h4)]
  rfl

theorem spend_not_ok_card (card : Card) (amount recipient sender : Nat)
    (hp : ¬ spendPreconds card amount sender) :
    resultCard (spend card amount recipient sender) = card := by
  unfold spend
  split_ifs with h1 h2 h3 h4 h5
  · rfl
  · rfl
  · rfl
  · rfl
  · rfl
  · refine absurd ⟨not_not.mp h1, ?_, Nat.not_lt.mp h3, Nat.not_lt.mp h5⟩ hp
    cases hb : card.is_active with
    | true => rfl
    | false => exact absurd hb h2

theorem deposit_err_card (card : Card) (payment sender : Nat) (k : AbortKind) (c : Card)
    (h : deposit card payment sender = .err k c) : c = card := by
  unfold deposit at h
  split_ifs at h
  · injection h with h1 h2; exact h2.symm
  · injection h with h1 h2; exact h2.symm
  · injection h with h1 h2; exact h2.symm

theorem spend_err_card (card : Card) (amount recipient sender : Nat) (k : AbortKind) (c : Card)
    (h : spend card amount recipient sender = .err k c) : c = card := by
  unfold spend at h
  split_ifs at h
  · injection h with h1 h2; exact h2.symm
  · injection h with h1 h2; exact h2.symm
  · injection h with h1 h2; exact h2.symm
  · injection h with h1 h2; exact h2.symm
  · injection h with h1 h2; exact h2.symm

theorem direct_transfer_err_card (card : Card) (amount recipient sender : Nat)
    (k : AbortKind) (c : Card)
    (h : direct_transfer card amount recipient sender = .err k c) : c = card := by
  unfold direct_transfer at h
  split_ifs at h
  · injection h with h1 h2; exact h2.symm
  · injection h with h1 h2; exact h2.symm
  · injection h with h1 h2; exact h2.symm

theorem withdraw_err_card (card : Card) (amount sender : Nat) (k : AbortKind) (c : Card)
    (h : withdraw card amount sender = .err k c) : c = card := by
  unfold withdraw at h
  split_ifs at h
  · injection h with h1 h2; exact h2.symm
  · injection h with h1 h2; exact h2.symm

theorem runOp_err_card (sender : Nat) (op : Op) (card : Card) (k : AbortKind) (c : Card)
    (h : runOp sender op card = .err k c) : c = card := by
  cases op with
  | depositOp payment => exact deposit_err_card card payment sender k c h
  | spendOp amount recipient => exact spend_err_card card amount recipient sender k c h
  | spendToOwnerOp amount => exact spend_err_card card amount sender sender k c h
  | directTransferOp amount recipient =>
    exact direct_transfer_err_card card amount recipient sender k c h
  | withdrawOp amount => exact withdraw_err_card card amount sender k c h
  | deactivateOp =>
    unfold runOp deactivate_card at h
    split_ifs at h
    · injection h with h1 h2; exact h2.symm
  | reactivateOp =>
    unfold runOp reactivate_card at h
    split_ifs at h
    · injection h with h1 h2; exact h2.symm
  | updateLimitOp new_limit =>
    unfold runOp update_spending_limit at h
    split_ifs at h
    · injection h with h1 h2; exact h2.symm

theorem withdraw_ok_iff (card : Card) (amount sender : Nat) :
    resultKind (withdraw card amount sender) = none ↔
      sender = card.owner ∧ amount ≤ card.balance := by
  unfold withdraw
  split_ifs with h1 h2
  · exact iff_of_false (Option.some_ne_none _) (fun hp => h1 hp.1)
  · exact iff_of_false (Option.some_ne_none _) (fun hp => absurd hp.2 (Nat.not_le.mpr h2))
  · exact iff_of_true rfl ⟨not_not.mp h1, Nat.not_lt.mp h2⟩

theorem withdraw_ok_card (card : Card) (amount sender : Nat)
    (h1 : sender = card.owner) (h2 : amount ≤ card.balance) :
    withdraw card amount sender =
      .ok { card with balance := card.balance - amount } [] [⟨sender, amount⟩] := by
  unfold withdraw
  rw [if_neg (not_not_intro h1), if_neg (Nat.not_lt.mpr h2)]

theorem direct_transfer_ok_iff (card : Card) (amount recipient sender : Nat) :
    resultKind (direct_transfer card amount recipient sender) = none ↔
      sender = card.owner ∧ card.is_active = true ∧ amount ≤ card.balance := by
  unfold direct_transfer
  split_ifs with h1 h2 h3
  · exact iff_of_false (Option.some_ne_none _) (fun hp => h1 hp.1)
  · exact iff_of_false (Option.some_ne_none _)
      (fun hp => by rw [hp.2.1] at h2; exact Bool.noConfusion h2)
  · exact iff_of_false (Option.some_ne_none _)
      (fun hp => absurd hp.2.2 (Nat.not_le.mpr h3))
  · refine iff_of_true rfl ⟨not_not.mp h1, ?_, Nat.not_lt.mp h3⟩
    cases hb : card.is_active with
    | true => rfl
    | false => exact absurd hb h2

theorem direct_transfer_ok_card (card : Card) (amount recipient sender : Nat)
    (h1 : sender = card.owner) (h2 : card.is_active = true) (h3 : amount ≤ card.balance) :
    direct_transfer card amount recipient sender =
      .ok { card with balance := card.balance - amount }
        [Event.DirectTransfer card.id recipient amount (card.balance - amount)]
        [⟨recipient, amount⟩] := by
  unfold direct_transfer
  rw [if_neg (not_not_intro h1), if_neg (by rw [h2]; exact fun hf => Bool.noConfusion hf),
    if_neg (Nat.not_lt.mpr h3)]

theorem deactivate_card_ok (card : Card) (sender : Nat) (hown : sender = card.owner) :
    deactivate_card card sender = .ok { card with is_active := false } [] [] := by
  unfold deactivate_card
  rw [if_neg (not_not_intro hown)]

theorem reactivate_card_ok (card : Card) (sender : Nat) (hown : sender = card.owner) :
    reactivate_card card sender = .ok { card with is_active := true } [] [] := by
  unfold reactivate_card
  rw [if_neg (not_not_intro hown)]

theorem update_spending_limit_ok (card : Card) (new_limit sender : Nat)
    (hown : sender = card.owner) :
    update_spending_limit card new_limit sender =
      .ok { card with spending_limit := new_limit } [] [] := by
  unfold update_spending_limit
  rw [if_neg (not_not_intro hown)]

theorem deposit_inactive_err (card : Card) (payment sender : Nat)
    (hb : card.is_active = false) :
    resultKind (deposit card payment sender) ≠ none := by
  unfold deposit
  split_ifs <;> exact Option.some_ne_none _

theorem spend_inactive_err (card : Card) (amount recipient sender : Nat)
    (hb : card.is_active = false) :
    resultKind (spend card amount recipient sender) ≠ none := by
  unfold spend
  split_ifs <;> exact Option.some_ne_none _

theorem direct_transfer_inactive_err (card : Card) (amount recipient sender : Nat)
    (hb : card.is_active = false) :
    resultKind (direct_transfer card amount recipient sender) ≠ none := by
  unfold direct_transfer
  split_ifs <;> exact Option.some_ne_none _

theorem spend_overflow_err (card : Card) (amount recipient sender : Nat)
    (hov : u64Max < card.amount_spent + amount) :
    resultKind (spend card amount recipient sender) ≠ none := by
  unfold spend
  split_ifs <;> exact Option.some_ne_none _

theorem spend_not_ok_state (card : Card) (amount recipient sender : Nat)
    (hk : resultKind (spend card amount recipient sender) ≠ none) :
    resultCard (spend card amount recipient sender) = card := by
  unfold spend at hk ⊢
  split_ifs at hk ⊢
  · rfl
  · rfl
  · rfl
  · rfl
  · rfl
  · exact absurd rfl hk

theorem spend_ok_le (card : Card) (amount recipient sender : Nat)
    (hk : resultKind (spend card amount recipient sender) = none) :
    amount ≤ card.balance := by
  unfold spend at hk
  split_ifs at hk with h1 h2 h3 h4 h5 <;>
    first
      | exact Nat.not_lt.mp h3
      | exact absurd hk (Option.some_ne_none _)

theorem deposit_ok_shape (card : Card) (payment sender : Nat)
    (hk : resultKind (deposit card payment sender) = none) :
    deposit card payment sender =
      .ok { card with balance := card.balance + payment }
        [Event.Deposit card.id payment (card.balance + payment)] [] := by
  unfold deposit at hk ⊢
  split_ifs at hk ⊢
  · exact absurd hk (Option.some_ne_none _)
  · exact absurd hk (Option.some_ne_none _)
  · exact absurd hk (Option.some_ne_none _)
  · rfl

theorem spend_ok_shape (card : Card) (amount recipient sender : Nat)
    (hk : resultKind (spend card amount recipient sender) = none) :
    spend card amount recipient sender =
      .ok { card with balance := card.balance - amount,
                      amount_spent := card.amount_spent + amount }
        [Event.Spend card.id amount (card.balance - amount) (card.amount_spent + amount)]
        [⟨recipient, amount⟩] := by
  unfold spend at hk ⊢
  split_ifs at hk ⊢
  · exact absurd hk (Option.some_ne_none _)
  · exact absurd hk (Option.some_ne_none _)
  · exact absurd hk (Option.some_ne_none _)
  · exact absurd hk (Option.some_ne_none _)
  · exact absurd hk (Option.some_ne_none _)
  · rfl

theorem direct_transfer_ok_shape (card : Card) (amount recipient sender : Nat)
    (hk : resultKind (direct_transfer card amount recipient sender) = none) :
    direct_transfer card amount recipient sender =
      .ok { card with balance := card.balance - amount }
        [Event.DirectTransfer card.id recipient amount (card.balance - amount)]
        [⟨recipient, amount⟩] := by
  unfold direct_transfer at hk ⊢
  split_ifs at hk ⊢
  · exact absurd hk (Option.some_ne_none _)
  · exact absurd hk (Option.some_ne_none _)
  · exact absurd hk (Option.some_ne_none _)
  · rfl

theorem runOp_ok_balance (sender : Nat) (op : Op) (card c : Card) (evs : List Event)
    (ts : List CoinTransfer) (h : runOp sender op card = OpResult.ok c evs ts) :
    c.balance + outflow op = card.balance + inflow op := by
  cases op with
  | depositOp payment =>
    simp only [runOp, deposit] at h
    split_ifs at h
    injection h with hc he ht
    subst hc
    show card.balance + payment + 0 = card.balance + payment
    omega
  | spendOp amount recipient =>
    simp only [runOp, spend] at h
    split_ifs at h with hc1 hc2 hc3 hc4 hc5
    injection h with hc he ht
    subst hc
    show card.balance - amount + amount = card.balance + 0
    omega
  | spendToOwnerOp amount =>
    simp only [runOp, spend_to_owner, spend] at h
    split_ifs at h with hc1 hc2 hc3 hc4 hc5
    injection h with hc he ht
    subst hc
    show card.balance - amount + amount = card.balance + 0
    omega
  | directTransferOp amount recipient =>
    simp only [runOp, direct_transfer] at h
    split_ifs at h with hc1 hc2 hc3
    injection h with hc he ht
    subst hc
    show card.balance - amount + amount = card.balance + 0
    omega
  | withdrawOp amount =>
    simp only [runOp, withdraw] at h
    split_ifs at h with hc1 hc2
    injection h with hc he ht
    subst hc
    show card.balance - amount + amount = card.balance + 0
    omega
  | deactivateOp =>
    simp only [runOp, deactivate_card] at h
    split_ifs at h
    injection h with hc he ht
    subst hc
    rfl
  | reactivateOp =>
    simp only [runOp, reactivate_card] at h
    split_ifs at h
    injection h with hc he ht
    subst hc
    rfl
  | updateLimitOp new_limit =>
    simp only [runOp, update_spending_limit] at h
    split_ifs at h
    injection h with hc he ht
    subst hc
    rfl

theorem runOps_balance (sender : Nat) (ops : List Op) :
    ∀ (card c : Card), runOps sender card ops = some c →
      c.balance + sumOutflow ops = card.balance + sumInflow ops := by
  induction ops with
  | nil =>
    intro card c h
    simp only [runOps, Option.some.injEq] at h
    subst h
    rfl
  | cons op rest ih =>
    intro card c h
    simp only [runOps] at h
    cases hop : runOp sender op card with
    | ok c1 evs ts =>
      rw [hop] at h
      have hb1 := runOp_ok_balance sender op card c1 evs ts hop
      have hb2 := ih c1 c h
      simp only [sumInflow, sumOutflow, List.map_cons, List.sum_cons] at hb2 ⊢
      omega
    | err k c1 =>
      rw [hop] at h
      exact Option.noConfusion h

/-- C1 (amended): `spend` succeeds iff the four preconditions hold, checked
in the fixed order; on success `balance` decreases by `amount` and
`amount_spent` increases by `amount`; on failure the card is unchanged and
the reported kind is that of the first violated precondition, except that
when the first three checks pass and `amount_spent + amount` overflows `u64`
the call aborts with the Move VM's arithmetic overflow instead of
`ExceedsSpendingLimit`. -/
theorem C1_spend_contract (card : Card) (amount recipient sender : Nat) (hwf : card.wf) :
    (resultKind (spend card amount recipient sender) = none ↔
      spendPreconds card amount sender) ∧
    resultKind (spend card amount recipient sender) = amendedSpendKind card amount sender ∧
    (spendPreconds card amount sender →
      resultCard (spend card amount recipient sender) =
        { card with balance := card.balance - amount,
                    amount_spent := card.amount_spent + amount }) ∧
    (¬ spendPreconds card amount sender →
      resultCard (spend card amount recipient sender) = card) :=
  ⟨spend_ok_iff card amount recipient sender hwf.2.1,
   spend_kind_eq card amount recipient sender,
   fun hp => spend_ok_card card amount recipient sender hwf.2.1 hp,
   fun hp => spend_not_ok_card card amount recipient sender hp⟩

/-- C1, instantiated at a concrete well-formed card. -/
theorem C1_spend_contract_witness :
    (resultKind (spend baseCard 2 9 0) = none ↔ spendPreconds baseCard 2 0) ∧
    resultKind (spend baseCard 2 9 0) = amendedSpendKind baseCard 2 0 ∧
    (spendPreconds baseCard 2 0 →
      resultCard (spend baseCard 2 9 0) =
        { baseCard with balance := baseCard.balance - 2,
                        amount_spent := baseCard.amount_spent + 2 }) ∧
    (¬ spendPreconds baseCard 2 0 → resultCard (spend baseCard 2 9 0) = baseCard) :=
  C1_spend_contract baseCard 2 9 0 (by decide)

/-- C1 fails exactly as stated: at a concrete well-formed card whose
`amount_spent` is the `u64` maximum, the first violated precondition is the
limit check, so the claim predicts `ExceedsSpendingLimit`, but the call
aborts with the Move VM's arithmetic overflow while computing
`amount_spent + amount`. -/
theorem C1_counterexample :
    saturatedCard.wf ∧
    claimedSpendKind saturatedCard 1 0 = some AbortKind.ExceedsSpendingLimit ∧
    resultKind (spend saturatedCard 1 5 0) = some AbortKind.ArithmeticOverflow ∧
    some AbortKind.ArithmeticOverflow ≠ some AbortKind.ExceedsSpendingLimit := by
  refine ⟨by decide, by decide, by decide, by decide⟩

/-- C2: every operation of the module is atomic: when an invocation aborts
with one of the four assert kinds, every field of the card is exactly as
before the call. -/
theorem C2_atomic_abort (sender : Nat) (op : Op) (card c : Card) (k : AbortKind)
    (h : runOp sender op card = OpResult.err k c)
    (_hk : k = AbortKind.NotOwner ∨ k = AbortKind.InactiveCard ∨
      k = AbortKind.InsufficientBalance ∨ k = AbortKind.ExceedsSpendingLimit) :
    c = card :=
  runOp_err_card sender op card k c h

/-- C2, instantiated at a concrete aborting call (a non-owner withdraw). -/
theorem C2_atomic_abort_witness : baseCardCopy = baseCard :=
  C2_atomic_abort 1 (Op.withdrawOp 5) baseCard baseCardCopy AbortKind.NotOwner (by decide)
    (Or.inl rfl)

/-- C3: `direct_transfer` succeeds iff the caller is the owner, the card is
active and the balance covers the amount; on success the balance decreases
by exactly `amount` and no other field (owner, spending limit, amount spent,
activity) changes, whatever the amount and recipient. -/
theorem C3_direct_transfer_contract (card : Card) (amount recipient sender : Nat) :
    (resultKind (direct_transfer card amount recipient sender) = none ↔
      sender = card.owner ∧ card.is_active = true ∧ amount ≤ card.balance) ∧
    (resultKind (direct_transfer card amount recipient sender) = none →
      resultCard (direct_transfer card amount recipient sender) =
        { card with balance := card.balance - amount } ∧
      (resultCard (direct_transfer card amount recipient sender)).balance + amount =
        card.balance) := by
  refine ⟨direct_transfer_ok_iff card amount recipient sender, fun hk => ?_⟩
  obtain ⟨h1, h2, h3⟩ := (direct_transfer_ok_iff card amount recipient sender).mp hk
  rw [direct_transfer_ok_card card amount recipient sender h1 h2 h3]
  exact ⟨rfl, by show card.balance - amount + amount = card.balance; omega⟩

/-- C4 (amended): withdraw, update_spending_limit and the two toggles succeed
for the owner regardless of `is_active`; deposit, the limit-tracked spend
AND `direct_transfer` all require `is_active = true`. -/
theorem C4_activity_gating (card : Card) (amount new_limit recipient payment sender : Nat)
    (hown : sender = card.owner) :
    (amount ≤ card.balance → resultKind (withdraw card amount sender) = none) ∧
    resultKind (update_spending_limit card new_limit sender) = none ∧
    resultKind (deactivate_card card sender) = none ∧
    resultKind (reactivate_card card sender) = none ∧
    (resultKind (direct_transfer card amount recipient sender) = none →
      card.is_active = true) ∧
    (resultKind (deposit card payment sender) = none → card.is_active = true) ∧
    (resultKind (spend card amount recipient sender) = none → card.is_active = true) := by
  refine ⟨fun hb => ?_, ?_, ?_, ?_, fun hk => ?_, fun hk => ?_, fun hk => ?_⟩
  · rw [withdraw_ok_card card amount sender hown hb]; rfl
  · rw [update_spending_limit_ok card new_limit sender hown]; rfl
  · rw [deactivate_card_ok card sender hown]; rfl
  · rw [reactivate_card_ok card sender hown]; rfl
  · cases hb : card.is_active with
    | true => rfl
    | false => exact absurd hk (direct_transfer_inactive_err card amount recipient sender hb)
  · cases hb : card.is_active with
    | true => rfl
    | false => exact absurd hk (deposit_inactive_err card payment sender hb)
  · cases hb : card.is_active with
    | true => rfl
    | false => exact absurd hk (spend_inactive_err card amount recipient sender hb)

/-- C4, instantiated at a concrete deactivated card of address 0: withdraw,
limit update and both toggles succeed while the card is inactive. -/
theorem C4_activity_gating_witness :
    (1 ≤ inactiveCard.balance → resultKind (withdraw inactiveCard 1 0) = none) ∧
    resultKind (update_spending_limit inactiveCard 7 0) = none ∧
    resultKind (deactivate_card inactiveCard 0) = none ∧
    resultKind (reactivate_card inactiveCard 0) = none ∧
    (resultKind (direct_transfer inactiveCard 1 9 0) = none →
      inactiveCard.is_active = true) ∧
    (resultKind (deposit inactiveCard 4 0) = none → inactiveCard.is_active = true) ∧
    (resultKind (spend inactiveCard 1 9 0) = none → inactiveCard.is_active = true) :=
  C4_activity_gating inactiveCard 1 7 9 4 0 rfl

/-- C4 fails as stated: at a concrete deactivated card, its owner calling
`direct_transfer` with sufficient balance is aborted with `InactiveCard`
rather than succeeding independently of the activity flag. -/
theorem C4_counterexample :
    inactiveCard.is_active = false ∧ (0 : Nat) = inactiveCard.owner ∧
    1 ≤ inactiveCard.balance ∧
    resultKind (direct_transfer inactiveCard 1 7 0) = some AbortKind.InactiveCard := by
  decide

/-- C5: over any sequence of successful operations starting from a freshly
created card, the final balance is the sum of the deposited amounts minus
the sum of the amounts moved out by spend, spend_to_owner, direct_transfer
and withdraw. -/
theorem C5_balance_accounting (spending_limit freshId sender : Nat) (ops : List Op)
    (c : Card)
    (h : runOps sender (create_card spending_limit freshId sender).1 ops = some c) :
    c.balance = sumInflow ops - sumOutflow ops := by
  have hb := runOps_balance sender ops (create_card spending_limit freshId sender).1 c h
  have h0 : (create_card spending_limit freshId sender).1.balance = 0 := rfl
  omega

/-- C5, instantiated at a concrete successful sequence using every operation
of the module. -/
theorem C5_balance_accounting_witness :
    opsSampleFinal.balance = sumInflow opsSample - sumOutflow opsSample :=
  C5_balance_accounting 1000 0 0 opsSample opsSampleFinal (by decide)

/-- C6: `withdraw` succeeds iff the caller is the owner and the balance
covers the amount, independently of `is_active`; on success the balance
decreases by `amount`, no other field changes, no event is emitted and the
coin goes back to the sender — while successful deposit, spend and
direct_transfer each do emit an event. -/
theorem C6_withdraw_contract (card : Card) (amount recipient payment sender : Nat) :
    (resultKind (withdraw card amount sender) = none ↔
      sender = card.owner ∧ amount ≤ card.balance) ∧
    (resultKind (withdraw card amount sender) = none →
      resultCard (withdraw card amount sender) =
        { card with balance := card.balance - amount } ∧
      resultEvents (withdraw card amount sender) = [] ∧
      resultTransfers (withdraw card amount sender) = [⟨sender, amount⟩]) ∧
    (resultKind (deposit card payment sender) = none →
      resultEvents (deposit card payment sender) ≠ []) ∧
    (resultKind (spend card amount recipient sender) = none →
      resultEvents (spend card amount recipient sender) ≠ []) ∧
    (resultKind (direct_transfer card amount recipient sender) = none →
      resultEvents (direct_transfer card amount recipient sender) ≠ []) := by
  refine ⟨withdraw_ok_iff card amount sender, fun hk => ?_, fun hk => ?_, fun hk => ?_,
    fun hk => ?_⟩
  · obtain ⟨h1, h2⟩ := (withdraw_ok_iff card amount sender).mp hk
    rw [withdraw_ok_card card amount sender h1 h2]
    exact ⟨rfl, rfl, rfl⟩
  · rw [deposit_ok_shape card payment sender hk]
    exact fun hf => List.noConfusion hf
  · rw [spend_ok_shape card amount recipient sender hk]
    exact fun hf => List.noConfusion hf
  · rw [direct_transfer_ok_shape card amount recipient sender hk]
    exact fun hf => List.noConfusion hf

/-- C7: amount arithmetic aborts rather than wraps, and every successful
movement is exact: when `amount_spent + amount` exceeds the `u64` maximum,
`spend` aborts with the card unchanged; and each successful spend, deposit,
withdraw and direct_transfer debits or credits exactly the requested amount
and transfers exactly that amount out. -/
theorem C7_exact_arithmetic (card : Card) (amount recipient payment sender : Nat) :
    (u64Max < card.amount_spent + amount →
      resultKind (spend card amount recipient sender) ≠ none ∧
      resultCard (spend card amount recipient sender) = card) ∧
    (resultKind (spend card amount recipient sender) = none →
      (resultCard (spend card amount recipient sender)).balance + amount = card.balance ∧
      resultTransfers (spend card amount recipient sender) = [⟨recipient, amount⟩]) ∧
    (resultKind (deposit card payment sender) = none →
      (resultCard (deposit card payment sender)).balance = card.balance + payment) ∧
    (resultKind (withdraw card amount sender) = none →
      (resultCard (withdraw card amount sender)).balance + amount = card.balance ∧
      resultTransfers (withdraw card amount sender) = [⟨sender, amount⟩]) ∧
    (resultKind (direct_transfer card amount recipient sender) = none →
      (resultCard (direct_transfer card amount recipient sender)).balance + amount =
        card.balance ∧
      resultTransfers (direct_transfer card amount recipient sender) =
        [⟨recipient, amount⟩]) := by
  refine ⟨fun hov => ?_, fun hk => ?_, fun hk => ?_, fun hk => ?_, fun hk => ?_⟩
  · exact ⟨spend_overflow_err card amount recipient sender hov,
      spend_not_ok_state card amount recipient sender
        (spend_overflow_err card amount recipient sender hov)⟩
  · have hle := spend_ok_le card amount recipient sender hk
    rw [spend_ok_shape card amount recipient sender hk]
    exact ⟨by show card.balance - amount + amount = card.balance; omega, rfl⟩
  · rw [deposit_ok_shape card payment sender hk]
    rfl
  · obtain ⟨h1, h2⟩ := (withdraw_ok_iff card amount sender).mp hk
    rw [withdraw_ok_card card amount sender h1 h2]
    exact ⟨by show card.balance - amount + amount = card.balance; omega, rfl⟩
  · obtain ⟨h1, h2, h3⟩ := (direct_transfer_ok_iff card amount recipient sender).mp hk
    rw [direct_transfer_ok_card card amount recipient sender h1 h2 h3]
    exact ⟨by show card.balance - amount + amount = card.balance; omega, rfl⟩

/-- C8: `create_card` yields a card with zero balance, zero spent, the
supplied limit, active, owned by the caller, and emits the `CardCreated`
event carrying the card id, the owner and the limit. -/
theorem C8_create_card (spending_limit freshId sender : Nat) :
    (create_card spending_limit freshId sender).1 =
      { id := freshId, owner := sender, balance := 0, spending_limit := spending_limit,
        amount_spent := 0, is_active := true } ∧
    (create_card spending_limit freshId sender).2 =
      Event.CardCreated freshId sender spending_limit :=
  ⟨rfl, rfl⟩

/-- C9: for the owner, `deactivate_card` and `reactivate_card` always succeed
and set `is_active` to false resp. true, with no event; when the card is
already in the target state the whole card is left unchanged. -/
theorem C9_toggle_idempotent (card : Card) (sender : Nat) (hown : sender = card.owner) :
    deactivate_card card sender = OpResult.ok { card with is_active := false } [] [] ∧
    reactivate_card card sender = OpResult.ok { card with is_active := true } [] [] ∧
    (card.is_active = false → resultCard (deactivate_card card sender) = card) ∧
    (card.is_active = true → resultCard (reactivate_card card sender) = card) := by
  have hde := deactivate_card_ok card sender hown
  have hre := reactivate_card_ok card sender hown
  refine ⟨hde, hre, fun hb => ?_, fun hb => ?_⟩
  · rw [hde]
    cases card with
    | mk i o b l s a =>
      cases a with
      | false => rfl
      | true => exact Bool.noConfusion hb
  · rw [hre]
    cases card with
    | mk i o b l s a =>
      cases a with
      | true => rfl
      | false => exact Bool.noConfusion hb

/-- C9, instantiated at a concrete deactivated card: deactivating again is a
no-op. -/
theorem C9_toggle_idempotent_witness :
    deactivate_card inactiveCard 0 =
      OpResult.ok { inactiveCard with is_active := false } [] [] ∧
    reactivate_card inactiveCard 0 =
      OpResult.ok { inactiveCard with is_active := true } [] [] ∧
    (inactiveCard.is_active = false →
      resultCard (deactivate_card inactiveCard 0) = inactiveCard) ∧
    (inactiveCard.is_active = true →
      resultCard (reactivate_card inactiveCard 0) = inactiveCard) :=
  C9_toggle_idempotent inactiveCard 0 rfl

/-- C10: every successful deposit, spend and direct_transfer emits exactly
one event, whose `new_balance` equals the card's balance after the mutation,
whose `Deposit.amount` is the deposited coin's value, and whose
`Spend.total_spent` is the updated `amount_spent`. -/
theorem C10_event_payloads (card c1 c2 c3 : Card) (payment amount recipient sender : Nat)
    (e1 e2 e3 : List Event) (t1 t2 t3 : List CoinTransfer)
    (h1 : deposit card payment sender = OpResult.ok c1 e1 t1)
    (h2 : spend card amount recipient sender = OpResult.ok c2 e2 t2)
    (h3 : direct_transfer card amount recipient sender = OpResult.ok c3 e3 t3) :
    e1 = [Event.Deposit card.id payment c1.balance] ∧
    e2 = [Event.Spend card.id amount c2.balance c2.amount_spent] ∧
    e3 = [Event.DirectTransfer card.id recipient amount c3.balance] := by
  have hk1 : resultKind (deposit card payment sender) = none := by rw [h1]; rfl
  have hk2 : resultKind (spend card amount recipient sender) = none := by rw [h2]; rfl
  have hk3 : resultKind (direct_transfer card amount recipient sender) = none := by
    rw [h3]; rfl
  have hs1 := deposit_ok_shape card payment sender hk1
  have hs2 := spend_ok_shape card amount recipient sender hk2
  have hs3 := direct_transfer_ok_shape card amount recipient sender hk3
  rw [h1] at hs1
  rw [h2] at hs2
  rw [h3] at hs3
  injection hs1 with hc1 he1 ht1
  injection hs2 with hc2 he2 ht2
  injection hs3 with hc3 he3 ht3
  refine ⟨?_, ?_, ?_⟩
  · rw [he1, hc1]
  · rw [he2, hc2]
  · rw [he3, hc3]

/-- C10, instantiated at concrete successful calls on a funded active card. -/
theorem C10_event_payloads_witness :
    [Event.Deposit 0 5 15] = [Event.Deposit baseCard.id 5 depositFinal.balance] ∧
    [Event.Spend 0 3 7 3] =
      [Event.Spend baseCard.id 3 spendFinal.balance spendFinal.amount_spent] ∧
    [Event.DirectTransfer 0 7 3 7] =
      [Event.DirectTransfer baseCard.id 7 3 directTransferFinal.balance] :=
  C10_event_payloads baseCard depositFinal spendFinal directTransferFinal 5 3 7 0
    [Event.Deposit 0 5 15] [Event.Spend 0 3 7 3] [Event.DirectTransfer 0 7 3 7]
    [] [⟨7, 3⟩] [⟨7, 3⟩] (by decide) (by decide) (by decide)

end CardModule
